import Mathlib

/-!
Verification development for the AutoService appointment/invoicing layer
(`autoservice.py`): a shallow embedding of the repository/test-double
abstraction layer (fake clock, mock email service, spy notification
service, SQLite-backed appointment and invoice stores, and the
`AutoServiceManager` / `BillingManager` workflows), together with proofs
of the specified testable properties.

Modelling conventions:
- Python strings are `List Char`; `str.split(sep)` is `pySplit`.
- `datetime` values are `Int` seconds; `timedelta(hours, days)` is
  `hours * 3600 + days * 86400` seconds.
- Monetary amounts (`float` in the source, always exactly representable
  decimal values) are `ℚ`.
- A SQLite table with an `INTEGER PRIMARY KEY AUTOINCREMENT` column is a
  list of rows plus the largest identifier ever assigned (`seq`); the next
  insert receives `seq + 1`, so identifiers are never reused even after
  deletion, matching SQLite AUTOINCREMENT semantics.
- Raising `ValueError` is returning `Except.error`; the error payload
  keeps the data interpolated into the Python message (the offending
  value, and for service types the list of valid codes).
- The injected email service is a state type `σ` together with a `send`
  function `σ → to → subject → body → Bool × σ`.
-/

/-- Python's `str.split(sep)` on a list of characters: splits at every
occurrence of `sep`, keeping empty segments, and yields `[[]]` on the
empty string. -/
def pySplit (sep : Char) : List Char → List (List Char)
  | [] => [[]]
  | c :: cs =>
    let r := pySplit sep cs
    if c = sep then [] :: r
    else (c :: r.headD []) :: r.tail

/-- Characters of a string strictly before the first occurrence of `sep`
(the whole string if `sep` is absent). -/
def takeUntil (sep : Char) : List Char → List Char
  | [] => []
  | c :: cs => if c = sep then [] else c :: takeUntil sep cs

/-- Characters of a string strictly after the first occurrence of `sep`
(empty if `sep` is absent). -/
def afterFirst (sep : Char) : List Char → List Char
  | [] => []
  | c :: cs => if c = sep then cs else afterFirst sep cs

/-- `FakeTimeProvider`: the fixed-clock test double. It holds a timestamp
(`_time`, in seconds) returned unchanged by `now`. -/
structure FakeTimeProvider where
  _time : Int
deriving DecidableEq

/-- `FakeTimeProvider.now` returns the held timestamp. -/
def FakeTimeProvider.now (t : FakeTimeProvider) : Int := t._time

/-- Python's `timedelta(hours=h, days=d)` in seconds. -/
def timedelta (hours days : Int) : Int := hours * 3600 + days * 86400

/-- `FakeTimeProvider.advance(hours, days)`: adds
`timedelta(hours, days)` to the held timestamp. Both arguments are Python
`int`s and may be negative. -/
def FakeTimeProvider.advance (t : FakeTimeProvider) (hours days : Int) :
    FakeTimeProvider :=
  { _time := t._time + timedelta hours days }

/-- One entry of `MockEmailService.sent_emails`: the Python dict with keys
`to`, `subject`, `body` (`to` is a Lean keyword, so that field is named
`to_addr`). -/
structure SentEmail where
  to_addr : List Char
  subject : List Char
  body : List Char
deriving DecidableEq

/-- `MockEmailService`: the recording email double. Captures emails in
`sent_emails` and counts calls in `call_count`. -/
structure MockEmailService where
  sent_emails : List SentEmail
  call_count : Nat
deriving DecidableEq

/-- `MockEmailService.send`: increments `call_count`, appends the call's
arguments to `sent_emails`, and returns `True`. -/
def MockEmailService.send (s : MockEmailService)
    (to_addr subject body : List Char) : Bool × MockEmailService :=
  (true,
   { call_count := s.call_count + 1,
     sent_emails := s.sent_emails ++
       [{ to_addr := to_addr, subject := subject, body := body }] })

/-- An injected email service: a state type `σ` with a `send` operation,
the shape of the `EmailService` abstract base class. -/
structure EmailSvc (σ : Type) where
  send : σ → List Char → List Char → List Char → Bool × σ

/-- The `MockEmailService` packaged as an injectable email service. -/
def mockEmailSvc : EmailSvc MockEmailService :=
  { send := MockEmailService.send }

/-- One entry of `SpyNotificationService.notifications`. The Python dict
also stores a wall-clock `timestamp` taken from the ambient clock
(`datetime.now()`), which is ambient I/O and is not modelled. -/
structure NotificationRecord where
  user_id : List Char
  message : List Char
  channel : List Char
deriving DecidableEq

/-- `SpyNotificationService`: records every `notify` call in
`notifications` and `call_args` and counts calls. -/
structure SpyNotificationService where
  notifications : List NotificationRecord
  call_count : Nat
  call_args : List (List Char × List Char × List Char)
deriving DecidableEq

/-- `SpyNotificationService.notify`: increments `call_count`, appends the
arguments to `call_args` and `notifications`, and returns `True`. -/
def SpyNotificationService.notify (s : SpyNotificationService)
    (user_id message channel : List Char) :
    Bool × SpyNotificationService :=
  (true,
   { call_count := s.call_count + 1,
     call_args := s.call_args ++ [(user_id, message, channel)],
     notifications := s.notifications ++
       [{ user_id := user_id, message := message, channel := channel }] })

/-- The `Appointment` domain entity. `id` is `None` before persistence. -/
structure Appointment where
  id : Option Nat
  client_name : List Char
  email : List Char
  service_type : List Char
  date : List Char
  created_at : Int
  status : List Char
deriving DecidableEq

/-- The `Invoice` domain entity. `id` is `None` before persistence. -/
structure Invoice where
  id : Option Nat
  appointment_id : Nat
  amount : ℚ
  status : List Char
  created_at : Int
deriving DecidableEq

/-- A row of the `appointments` table (the id column is always set). -/
structure AppointmentRow where
  id : Nat
  client_name : List Char
  email : List Char
  service_type : List Char
  date : List Char
  created_at : Int
  status : List Char
deriving DecidableEq

/-- A row of the `invoices` table (the id column is always set). -/
structure InvoiceRow where
  id : Nat
  appointment_id : Nat
  amount : ℚ
  status : List Char
  created_at : Int
deriving DecidableEq

/-- `SqliteAppointmentRepository`: the `appointments` table, as its rows
plus the largest AUTOINCREMENT id ever assigned. -/
structure SqliteAppointmentRepository where
  rows : List AppointmentRow
  seq : Nat
deriving DecidableEq

/-- `SqliteAppointmentRepository.create`: inserts the appointment's
fields as a new row with the next AUTOINCREMENT id (`lastrowid`) and
returns that id. -/
def SqliteAppointmentRepository.create (repo : SqliteAppointmentRepository)
    (appointment : Appointment) : Nat × SqliteAppointmentRepository :=
  let appointment_id := repo.seq + 1
  (appointment_id,
   { rows := repo.rows ++
       [{ id := appointment_id,
          client_name := appointment.client_name,
          email := appointment.email,
          service_type := appointment.service_type,
          date := appointment.date,
          created_at := appointment.created_at,
          status := appointment.status }],
     seq := appointment_id })

/-- `SqliteAppointmentRepository.find_by_id`: the first row whose id
matches, rebuilt as an `Appointment`, or `None`. -/
def SqliteAppointmentRepository.find_by_id
    (repo : SqliteAppointmentRepository) (id : Nat) : Option Appointment :=
  (repo.rows.find? (fun r => r.id == id)).map (fun row =>
    { id := some row.id,
      client_name := row.client_name,
      email := row.email,
      service_type := row.service_type,
      date := row.date,
      created_at := row.created_at,
      status := row.status })

/-- `SqliteAppointmentRepository.find_all`: every row rebuilt as an
`Appointment`, in table order. -/
def SqliteAppointmentRepository.find_all
    (repo : SqliteAppointmentRepository) : List Appointment :=
  repo.rows.map (fun row =>
    { id := some row.id,
      client_name := row.client_name,
      email := row.email,
      service_type := row.service_type,
      date := row.date,
      created_at := row.created_at,
      status := row.status })

/-- `SqliteAppointmentRepository.delete`: removes the rows with the given
id and reports whether any row was removed (`cursor.rowcount > 0`). -/
def SqliteAppointmentRepository.delete (repo : SqliteAppointmentRepository)
    (id : Nat) : Bool × SqliteAppointmentRepository :=
  (repo.rows.any (fun r => r.id == id),
   { rows := repo.rows.filter (fun r => ! (r.id == id)), seq := repo.seq })

/-- `SqliteInvoiceRepository`: the `invoices` table, as its rows plus the
largest AUTOINCREMENT id ever assigned. -/
structure SqliteInvoiceRepository where
  rows : List InvoiceRow
  seq : Nat
deriving DecidableEq

/-- `SqliteInvoiceRepository.create`: inserts the invoice's fields as a
new row with the next AUTOINCREMENT id and returns that id. -/
def SqliteInvoiceRepository.create (repo : SqliteInvoiceRepository)
    (invoice : Invoice) : Nat × SqliteInvoiceRepository :=
  let invoice_id := repo.seq + 1
  (invoice_id,
   { rows := repo.rows ++
       [{ id := invoice_id,
          appointment_id := invoice.appointment_id,
          amount := invoice.amount,
          status := invoice.status,
          created_at := invoice.created_at }],
     seq := invoice_id })

/-- `SqliteInvoiceRepository.find_by_appointment`: the first invoice row
with the given appointment id, rebuilt as an `Invoice`, or `None`. -/
def SqliteInvoiceRepository.find_by_appointment
    (repo : SqliteInvoiceRepository) (appointment_id : Nat) :
    Option Invoice :=
  (repo.rows.find? (fun r => r.appointment_id == appointment_id)).map
    (fun row =>
      { id := some row.id,
        appointment_id := row.appointment_id,
        amount := row.amount,
        status := row.status,
        created_at := row.created_at })

/-- The `ServiceType` enum of valid service codes. -/
inductive ServiceType
  | OIL_CHANGE
  | BRAKE_CHECK
  | TIRE_ROTATION
  | FULL_SERVICE
deriving DecidableEq

/-- `ServiceType.value`: the string value of each enum member. -/
def ServiceType.value : ServiceType → List Char
  | .OIL_CHANGE => "oil_change".toList
  | .BRAKE_CHECK => "brake_check".toList
  | .TIRE_ROTATION => "tire_rotation".toList
  | .FULL_SERVICE => "full_service".toList

/-- Iteration order of the `ServiceType` enum (declaration order). -/
def ServiceType.members : List ServiceType :=
  [.OIL_CHANGE, .BRAKE_CHECK, .TIRE_ROTATION, .FULL_SERVICE]

/-- `[s.value for s in ServiceType]`: the list of valid service-type
strings. -/
def valid_types : List (List Char) := ServiceType.members.map ServiceType.value

/-- The payload of the `ValueError` raised by `create_appointment`: the
invalid-service message carries the offending value and the valid list;
the invalid-email message carries the offending address. -/
inductive VErr
  | invalidService (given : List Char) (valid : List (List Char))
  | invalidEmail (given : List Char)
deriving DecidableEq

/-- The result dict returned by `create_appointment`, with keys `id`,
`status`, `email_sent`, `created_at`, `appointment`. -/
structure CreateResult where
  id : Nat
  status : List Char
  email_sent : Bool
  created_at : Int
  appointment : Appointment
deriving DecidableEq

/-- `AutoServiceManager`: the manager's injected collaborators' states.
The time provider is the fake clock, the email service state has type
`σ` (its behaviour is passed separately as an `EmailSvc σ`), and the
optional notification service is the spy double. -/
structure AutoServiceManager (σ : Type) where
  time : FakeTimeProvider
  email : σ
  repo : SqliteAppointmentRepository
  notifications : Option SpyNotificationService

/-- `AutoServiceManager._validate_service_type`: membership of the
service-type string in `valid_types`. -/
def AutoServiceManager._validate_service_type (service_type : List Char) : Bool :=
  valid_types.contains service_type

/-- `AutoServiceManager._validate_email`:
`'@' in email and '.' in email.split('@')[1]`. When `'@'` is present the
split has at least two segments, so the `getD` default is never the
segment actually inspected. -/
def AutoServiceManager._validate_email (email : List Char) : Bool :=
  email.contains '@' && ((pySplit '@' email).getD 1 []).contains '.'

/-- `AutoServiceManager._create_email_body`: the confirmation email body
built from the appointment's fields. -/
def AutoServiceManager._create_email_body (appointment : Appointment) : List Char :=
  "\nEstimado/a ".toList ++ appointment.client_name ++
  ",\n\nSu cita de ".toList ++ appointment.service_type ++
  " ha sido confirmada para el ".toList ++ appointment.date ++
  ".\n\nDetalles:\n- Servicio: ".toList ++ appointment.service_type ++
  "\n- Fecha: ".toList ++ appointment.date ++
  "\n- Estado: ".toList ++ appointment.status ++
  "\n\nGracias por confiar en AutoService.\n".toList

/-- `AutoServiceManager.create_appointment`: validates the service type,
then the email; on failure raises (returns `Except.error`) with the
manager state untouched. On success stamps `created_at` from the clock,
persists the appointment with status `confirmed`, sends the confirmation
email through the injected service, notifies the spy if configured, and
returns the result dict. -/
def AutoServiceManager.create_appointment {σ : Type} (svc : EmailSvc σ)
    (m : AutoServiceManager σ)
    (client_name email service_type date_str : List Char) :
    Except VErr CreateResult × AutoServiceManager σ :=
  if ! AutoServiceManager._validate_service_type service_type then
    (Except.error (VErr.invalidService service_type valid_types), m)
  else if ! AutoServiceManager._validate_email email then
    (Except.error (VErr.invalidEmail email), m)
  else
    let created_at := m.time.now
    let appointment : Appointment :=
      { id := none, client_name := client_name, email := email,
        service_type := service_type, date := date_str,
        created_at := created_at, status := "confirmed".toList }
    let pr := m.repo.create appointment
    let appointment' := { appointment with id := some pr.1 }
    let se := svc.send m.email email ("Cita Confirmada - AutoService".toList)
      (AutoServiceManager._create_email_body appointment')
    let notifications' := match m.notifications with
      | some sp => some (sp.notify email
          ("Cita confirmada para ".toList ++ date_str) ("email".toList)).2
      | none => none
    (Except.ok
      { id := pr.1, status := "confirmed".toList, email_sent := se.1,
        created_at := created_at, appointment := appointment' },
     { time := m.time, email := se.2, repo := pr.2,
       notifications := notifications' })

/-- The `prices` table of `BillingManager._calculate_amount`:
service type → amount. -/
def prices : List (List Char × ℚ) :=
  [("oil_change".toList, 50), ("brake_check".toList, 75),
   ("tire_rotation".toList, 40), ("full_service".toList, 150)]

/-- `BillingManager._calculate_amount`: `prices.get(service_type, 100.0)`
— table lookup with default `100.0` for unknown service types. -/
def BillingManager._calculate_amount (service_type : List Char) : ℚ :=
  (prices.lookup service_type).getD 100

/-- Models the Python `f"{amount:.2f}"` rendering of an invoice amount,
exact for the nonnegative exactly-representable amounts the billing table
produces. -/
def format_2f (q : ℚ) : List Char :=
  let cents : Int := ⌊q * 100⌋
  (Int.repr (cents / 100)).toList ++ ['.'] ++
    (if cents % 100 < 10 then '0' :: (Int.repr (cents % 100)).toList
     else (Int.repr (cents % 100)).toList)

/-- The result dict returned by `create_invoice`, with keys `invoice_id`,
`amount`, `email_sent`. -/
structure InvoiceResult where
  invoice_id : Nat
  amount : ℚ
  email_sent : Bool
deriving DecidableEq

/-- `BillingManager`: the billing workflow's injected collaborators'
states (fake clock, invoice store, email-service state of type `σ`). -/
structure BillingManager (σ : Type) where
  time : FakeTimeProvider
  invoice_repo : SqliteInvoiceRepository
  email : σ

/-- `BillingManager.create_invoice`: computes the amount from the price
table, persists an `unpaid` invoice stamped from the clock, emails the
invoice through the injected service, and returns the result dict. It
raises nothing: a notification failure only shows up as the `email_sent`
boolean. -/
def BillingManager.create_invoice {σ : Type} (svc : EmailSvc σ)
    (b : BillingManager σ) (appointment_id : Nat)
    (client_email service_type : List Char) :
    InvoiceResult × BillingManager σ :=
  let amount := BillingManager._calculate_amount service_type
  let invoice : Invoice :=
    { id := none, appointment_id := appointment_id, amount := amount,
      status := "unpaid".toList, created_at := b.time.now }
  let pr := b.invoice_repo.create invoice
  let se := svc.send b.email client_email
    ("Factura #".toList ++ (Nat.repr pr.1).toList ++ " - AutoService".toList)
    ("Monto a pagar: $".toList ++ format_2f amount)
  ({ invoice_id := pr.1, amount := amount, email_sent := se.1 },
   { time := b.time, invoice_repo := pr.2, email := se.2 })

/-- `pySplit` never returns an empty list of segments. -/
theorem pySplit_ne_nil (sep : Char) : ∀ xs : List Char, pySplit sep xs ≠ []
  | [] => by simp [pySplit]
  | c :: cs => by
    simp only [pySplit]
    by_cases hc : c = sep <;> simp [hc]

/-- The first segment of `pySplit` is the text before the first
separator. -/
theorem headD_pySplit (sep : Char) :
    ∀ xs : List Char, (pySplit sep xs).headD [] = takeUntil sep xs
  | [] => by simp [pySplit, takeUntil]
  | c :: cs => by
    have ih := headD_pySplit sep cs
    simp only [pySplit, takeUntil]
    by_cases hc : c = sep
    · simp [hc]
    · simpa [hc] using ih

/-- When the separator occurs, the second segment of `pySplit` is the
text after the first separator, truncated at the next separator. -/
theorem getD_one_pySplit (sep : Char) :
    ∀ xs : List Char, xs.contains sep = true →
      (pySplit sep xs).getD 1 [] = takeUntil sep (afterFirst sep xs)
  | [] => by simp
  | c :: cs => by
    intro h
    simp only [pySplit, afterFirst]
    by_cases hc : c = sep
    · have h1 := headD_pySplit sep cs
      obtain ⟨a, t, he⟩ := List.exists_cons_of_ne_nil (pySplit_ne_nil sep cs)
      rw [he] at h1
      simp only [List.headD_eq_head?_getD, List.head?_cons, Option.getD_some] at h1
      simp [hc, he, h1]
    · have hcs : cs.contains sep = true := by
        rw [List.contains_cons] at h
        rcases Bool.or_eq_true_iff.mp h with h' | h'
        · exact absurd (beq_iff_eq.mp h').symm hc
        · exact h'
      have ih := getD_one_pySplit sep cs hcs
      obtain ⟨a, t, he⟩ := List.exists_cons_of_ne_nil (pySplit_ne_nil sep cs)
      rw [he] at ih
      simp only [List.getD_eq_getElem?_getD, List.getElem?_cons_succ] at ih
      simp [hc, he, ih]

/-- A character found before the first separator is found in the whole
string. -/
theorem contains_of_takeUntil_contains (sep a : Char) :
    ∀ xs : List Char, (takeUntil sep xs).contains a = true →
      xs.contains a = true
  | [] => by simp [takeUntil]
  | c :: cs => by
    intro h
    simp only [takeUntil] at h
    by_cases hc : c = sep
    · simp [hc] at h
    · rw [if_neg hc, List.contains_cons] at h
      rw [List.contains_cons]
      rcases Bool.or_eq_true_iff.mp h with h' | h'
      · exact Bool.or_eq_true_iff.mpr (Or.inl h')
      · exact Bool.or_eq_true_iff.mpr
          (Or.inr (contains_of_takeUntil_contains sep a cs h'))

/-- If the contact check accepts, the address has an `@` and some dot in
the segment between the first `@` and the following `@` (in particular a
dot somewhere after the first `@`). -/
theorem validate_email_imp (email : List Char)
    (h : AutoServiceManager._validate_email email = true) :
    email.contains '@' = true ∧
      (afterFirst '@' email).contains '.' = true := by
  unfold AutoServiceManager._validate_email at h
  rw [Bool.and_eq_true] at h
  obtain ⟨h1, h2⟩ := h
  refine ⟨h1, ?_⟩
  rw [getD_one_pySplit '@' email h1] at h2
  exact contains_of_takeUntil_contains '@' '.' (afterFirst '@' email) h2

/-- Contrapositive form: an address with no `@`, or with no dot after the
first `@`, is rejected by the contact check. -/
theorem validate_email_eq_false (email : List Char)
    (h : email.contains '@' = false ∨
      (afterFirst '@' email).contains '.' = false) :
    AutoServiceManager._validate_email email = false := by
  by_contra hne
  have ht : AutoServiceManager._validate_email email = true := by
    revert hne
    cases AutoServiceManager._validate_email email <;> simp
  obtain ⟨h1, h2⟩ := validate_email_imp email ht
  rcases h with h' | h'
  · rw [h1] at h'
    exact Bool.true_eq_false.mp h'
  · rw [h2] at h'
    exact Bool.true_eq_false.mp h'

/-- Invariant of the appointments table: every row id is at most `seq`,
the largest AUTOINCREMENT value ever assigned. It holds for a fresh store
and is preserved by `create` and `delete`. -/
def RepoInv (repo : SqliteAppointmentRepository) : Prop :=
  ∀ r ∈ repo.rows, r.id ≤ repo.seq

instance (repo : SqliteAppointmentRepository) : Decidable (RepoInv repo) := by
  unfold RepoInv
  infer_instance

/-- `create` preserves the appointments-table invariant. -/
theorem RepoInv.create (repo : SqliteAppointmentRepository)
    (appointment : Appointment) (h : RepoInv repo) :
    RepoInv (repo.create appointment).2 := by
  intro r hr
  simp only [SqliteAppointmentRepository.create, List.mem_append,
    List.mem_singleton] at hr
  rcases hr with hr | hr
  · exact Nat.le_succ_of_le (h r hr)
  · subst hr
    exact Nat.le_refl _

/-- `delete` preserves the appointments-table invariant. -/
theorem RepoInv.delete (repo : SqliteAppointmentRepository) (id : Nat)
    (h : RepoInv repo) : RepoInv (repo.delete id).2 := by
  intro r hr
  simp only [SqliteAppointmentRepository.delete, List.mem_filter] at hr
  exact h r hr.1

/-- On valid input, `create_appointment` reduces to its success branch:
the appointment is stamped from the clock, appended to the table with id
`seq + 1`, the confirmation email is sent, and the spy (if any) is
notified. -/
theorem create_appointment_eq_of_valid {σ : Type} (svc : EmailSvc σ)
    (m : AutoServiceManager σ)
    (client_name email service_type date_str : List Char)
    (hst : AutoServiceManager._validate_service_type service_type = true)
    (hem : AutoServiceManager._validate_email email = true) :
    AutoServiceManager.create_appointment svc m client_name email
        service_type date_str =
      (Except.ok
        { id := m.repo.seq + 1,
          status := "confirmed".toList,
          email_sent := (svc.send m.email email
            ("Cita Confirmada - AutoService".toList)
            (AutoServiceManager._create_email_body
              { id := some (m.repo.seq + 1), client_name := client_name,
                email := email, service_type := service_type,
                date := date_str, created_at := m.time._time,
                status := "confirmed".toList })).1,
          created_at := m.time._time,
          appointment :=
            { id := some (m.repo.seq + 1), client_name := client_name,
              email := email, service_type := service_type,
              date := date_str, created_at := m.time._time,
              status := "confirmed".toList } },
       { time := m.time,
         email := (svc.send m.email email
            ("Cita Confirmada - AutoService".toList)
            (AutoServiceManager._create_email_body
              { id := some (m.repo.seq + 1), client_name := client_name,
                email := email, service_type := service_type,
                date := date_str, created_at := m.time._time,
                status := "confirmed".toList })).2,
         repo :=
           { rows := m.repo.rows ++
               [{ id := m.repo.seq + 1, client_name := client_name,
                  email := email, service_type := service_type,
                  date := date_str, created_at := m.time._time,
                  status := "confirmed".toList }],
             seq := m.repo.seq + 1 },
         notifications := match m.notifications with
           | some sp => some (sp.notify email
               ("Cita confirmada para ".toList ++ date_str)
               ("email".toList)).2
           | none => none }) := by
  simp [AutoServiceManager.create_appointment, hst, hem,
    SqliteAppointmentRepository.create, FakeTimeProvider.now]

/-- C1: for every input with a service type in the enumerated set and a
contact passing the shape check, `create_appointment` succeeds with an id
that is strictly positive, larger than every id the store ever assigned
(`seq`), and distinct from every existing row's id; and `find_by_id` on
the returned id afterwards yields a record with status `confirmed`. -/
theorem create_appointment_fresh_id_and_confirmed {σ : Type}
    (svc : EmailSvc σ) (m : AutoServiceManager σ)
    (client_name email service_type date_str : List Char)
    (hinv : RepoInv m.repo)
    (hst : AutoServiceManager._validate_service_type service_type = true)
    (hem : AutoServiceManager._validate_email email = true) :
    ∃ r m', AutoServiceManager.create_appointment svc m client_name email
        service_type date_str = (Except.ok r, m') ∧
      0 < r.id ∧ m.repo.seq < r.id ∧
      (∀ row ∈ m.repo.rows, row.id ≠ r.id) ∧
      ∃ a, m'.repo.find_by_id r.id = some a ∧
        a.status = "confirmed".toList := by
  rw [create_appointment_eq_of_valid svc m client_name email service_type
    date_str hst hem]
  refine ⟨_, _, rfl, Nat.succ_pos _, Nat.lt_succ_self _, ?_, ?_⟩
  · intro row hrow
    have := hinv row hrow
    dsimp only
    omega
  · simp only [SqliteAppointmentRepository.find_by_id]
    have hnone :
        m.repo.rows.find? (fun r => r.id == m.repo.seq + 1) = none := by
      rw [List.find?_eq_none]
      intro x hx
      have := hinv x hx
      simp only [beq_iff_eq]
      omega
    rw [List.find?_append, hnone]
    simp

/-- C2: for every service-type string outside the enumerated set,
`create_appointment` raises a validation error carrying the invalid
value and the list of valid values, and the manager state — in
particular the store's record count — is unchanged. -/
theorem create_appointment_invalid_service {σ : Type} (svc : EmailSvc σ)
    (m : AutoServiceManager σ)
    (client_name email service_type date_str : List Char)
    (hst : AutoServiceManager._validate_service_type service_type = false) :
    AutoServiceManager.create_appointment svc m client_name email
        service_type date_str =
      (Except.error (VErr.invalidService service_type valid_types), m) ∧
    (AutoServiceManager.create_appointment svc m client_name email
        service_type date_str).2.repo.rows.length =
      m.repo.rows.length := by
  have h : AutoServiceManager.create_appointment svc m client_name email
      service_type date_str =
      (Except.error (VErr.invalidService service_type valid_types), m) := by
    simp [AutoServiceManager.create_appointment, hst]
  exact ⟨h, by rw [h]⟩

/-- C3: for every contact string with no `@`, or with no `.` anywhere
after the first `@`, `create_appointment` with a valid service type
raises a validation error; the store, the email log and the notification
log are all unchanged. -/
theorem create_appointment_invalid_email {σ : Type} (svc : EmailSvc σ)
    (m : AutoServiceManager σ)
    (client_name email service_type date_str : List Char)
    (hst : AutoServiceManager._validate_service_type service_type = true)
    (hem : email.contains '@' = false ∨
      (afterFirst '@' email).contains '.' = false) :
    AutoServiceManager.create_appointment svc m client_name email
        service_type date_str =
      (Except.error (VErr.invalidEmail email), m) ∧
    (AutoServiceManager.create_appointment svc m client_name email
        service_type date_str).2.repo = m.repo ∧
    (AutoServiceManager.create_appointment svc m client_name email
        service_type date_str).2.email = m.email ∧
    (AutoServiceManager.create_appointment svc m client_name email
        service_type date_str).2.notifications = m.notifications := by
  have hf := validate_email_eq_false email hem
  have h : AutoServiceManager.create_appointment svc m client_name email
      service_type date_str =
      (Except.error (VErr.invalidEmail email), m) := by
    simp [AutoServiceManager.create_appointment, hst, hf]
  exact ⟨h, by rw [h], by rw [h], by rw [h]⟩

/-- C4: deleting an id present in the store returns true, a subsequent
`find_by_id` on it returns absent, and a second delete returns false;
deleting an id absent from the store returns false rather than
raising. -/
theorem delete_semantics (repo : SqliteAppointmentRepository) (id : Nat) :
    ((repo.find_by_id id).isSome = true →
      (repo.delete id).1 = true ∧
      (repo.delete id).2.find_by_id id = none ∧
      ((repo.delete id).2.delete id).1 = false) ∧
    (repo.find_by_id id = none → (repo.delete id).1 = false) := by
  constructor
  · intro h
    cases hf : repo.rows.find? (fun r => r.id == id) with
    | none =>
      rw [SqliteAppointmentRepository.find_by_id, hf] at h
      simp at h
    | some row =>
      have hmem := List.mem_of_find?_eq_some hf
      have hpred := List.find?_some hf
      refine ⟨?_, ?_, ?_⟩
      · simp only [SqliteAppointmentRepository.delete]
        exact List.any_eq_true.mpr ⟨row, hmem, hpred⟩
      · simp only [SqliteAppointmentRepository.delete,
          SqliteAppointmentRepository.find_by_id]
        have hnone : (repo.rows.filter
            (fun r => ! (r.id == id))).find? (fun r => r.id == id) = none := by
          rw [List.find?_eq_none]
          intro x hx
          rw [List.mem_filter] at hx
          have hx2 := hx.2
          simp only [Bool.not_eq_true', beq_eq_false_iff_ne] at hx2
          simp only [beq_iff_eq]
          exact hx2
        rw [hnone]
        rfl
      · simp only [SqliteAppointmentRepository.delete]
        rw [Bool.eq_false_iff]
        intro hany
        obtain ⟨x, hx, hpx⟩ := List.any_eq_true.mp hany
        rw [List.mem_filter] at hx
        have hx2 := hx.2
        simp only [Bool.not_eq_true', beq_eq_false_iff_ne] at hx2
        exact hx2 (beq_iff_eq.mp hpx)
  · intro h
    have hf : repo.rows.find? (fun r => r.id == id) = none := by
      rw [SqliteAppointmentRepository.find_by_id] at h
      exact Option.map_eq_none'.mp h
    have hall := List.find?_eq_none.mp hf
    simp only [SqliteAppointmentRepository.delete]
    rw [Bool.eq_false_iff]
    intro hany
    obtain ⟨x, hx, hpx⟩ := List.any_eq_true.mp hany
    exact hall x hx hpx

/-- The amount returned by `create_invoice` is the price-table lookup on
the service type. -/
theorem create_invoice_amount_eq {σ : Type} (svc : EmailSvc σ)
    (b : BillingManager σ) (appointment_id : Nat)
    (client_email service_type : List Char) :
    (BillingManager.create_invoice svc b appointment_id client_email
      service_type).1.amount =
      BillingManager._calculate_amount service_type := by
  simp [BillingManager.create_invoice]

/-- C5: `create_invoice` yields amount 50 for `oil_change`, 75 for
`brake_check`, 40 for `tire_rotation`, 150 for `full_service`, and falls
back to 100 for every other service-type string without failing; the row
persisted in the invoice store carries the same amount. -/
theorem create_invoice_amounts {σ : Type} (svc : EmailSvc σ)
    (b : BillingManager σ) (appointment_id : Nat)
    (client_email service_type : List Char) :
    ((service_type = "oil_change".toList →
        (BillingManager.create_invoice svc b appointment_id client_email
          service_type).1.amount = 50) ∧
     (service_type = "brake_check".toList →
        (BillingManager.create_invoice svc b appointment_id client_email
          service_type).1.amount = 75) ∧
     (service_type = "tire_rotation".toList →
        (BillingManager.create_invoice svc b appointment_id client_email
          service_type).1.amount = 40) ∧
     (service_type = "full_service".toList →
        (BillingManager.create_invoice svc b appointment_id client_email
          service_type).1.amount = 150) ∧
     (valid_types.contains service_type = false →
        (BillingManager.create_invoice svc b appointment_id client_email
          service_type).1.amount = 100)) ∧
    ∃ row, (BillingManager.create_invoice svc b appointment_id client_email
        service_type).2.invoice_repo.rows =
        b.invoice_repo.rows ++ [row] ∧
      row.amount = (BillingManager.create_invoice svc b appointment_id
        client_email service_type).1.amount := by
  constructor
  · refine ⟨?_, ?_, ?_, ?_, ?_⟩ <;> intro h
    · subst h
      rw [create_invoice_amount_eq]
      decide
    · subst h
      rw [create_invoice_amount_eq]
      decide
    · subst h
      rw [create_invoice_amount_eq]
      decide
    · subst h
      rw [create_invoice_amount_eq]
      decide
    · rw [create_invoice_amount_eq]
      simp only [valid_types, ServiceType.members, ServiceType.value,
        List.map_cons, List.map_nil, List.contains_cons,
        List.contains_nil, Bool.or_eq_false_iff] at h
      obtain ⟨h1, h2, h3, h4, _⟩ := h
      have hnone : prices.lookup service_type = none := by
        simp only [prices, List.lookup, h1, h2, h3, h4]
      simp only [BillingManager._calculate_amount, hnone, Option.getD_none]
  · refine ⟨{ id := b.invoice_repo.seq + 1,
              appointment_id := appointment_id,
              amount := BillingManager._calculate_amount service_type,
              status := "unpaid".toList,
              created_at := b.time.now }, ?_, ?_⟩
    · simp [BillingManager.create_invoice, SqliteInvoiceRepository.create]
    · simp [BillingManager.create_invoice, SqliteInvoiceRepository.create]

/-- C6: with the fixed clock, two `create_appointment` calls with no
`advance` between them carry identical `created_at` stamps, and when the
clock is advanced by 5 hours between two calls the stamps differ by
exactly 5 hours (18000 seconds). -/
theorem fake_clock_create_timestamps {σ : Type} (svc : EmailSvc σ)
    (m : AutoServiceManager σ)
    (cn1 em1 st1 d1 cn2 em2 st2 d2 : List Char)
    (hst1 : AutoServiceManager._validate_service_type st1 = true)
    (hem1 : AutoServiceManager._validate_email em1 = true)
    (hst2 : AutoServiceManager._validate_service_type st2 = true)
    (hem2 : AutoServiceManager._validate_email em2 = true)
    (r1 r2 r3 : CreateResult) (m1 m2 m3 : AutoServiceManager σ)
    (h1 : AutoServiceManager.create_appointment svc m cn1 em1 st1 d1 =
      (Except.ok r1, m1))
    (h2 : AutoServiceManager.create_appointment svc m1 cn2 em2 st2 d2 =
      (Except.ok r2, m2))
    (h3 : AutoServiceManager.create_appointment svc
        { m1 with time := m1.time.advance 5 0 } cn2 em2 st2 d2 =
      (Except.ok r3, m3)) :
    r2.created_at = r1.created_at ∧
      r3.created_at - r1.created_at = 5 * 3600 := by
  rw [create_appointment_eq_of_valid svc m cn1 em1 st1 d1 hst1 hem1,
    Prod.mk.injEq] at h1
  obtain ⟨h1r, h1m⟩ := h1
  rw [Except.ok.injEq] at h1r
  rw [create_appointment_eq_of_valid svc m1 cn2 em2 st2 d2 hst2 hem2,
    Prod.mk.injEq] at h2
  obtain ⟨h2r, _⟩ := h2
  rw [Except.ok.injEq] at h2r
  rw [create_appointment_eq_of_valid svc _ cn2 em2 st2 d2 hst2 hem2,
    Prod.mk.injEq] at h3
  obtain ⟨h3r, _⟩ := h3
  rw [Except.ok.injEq] at h3r
  subst h1r h2r h3r
  have hm1time : m1.time = m.time := by
    rw [← h1m]
  constructor
  · simp [hm1time]
  · simp [hm1time, FakeTimeProvider.advance, timedelta]

/-- C7 counterexample: `advance` accepts negative Python ints, so a call
can move the fixed clock backwards — `advance(hours=-1)` from timestamp 0
makes `now()` return a strictly smaller value than before the call. -/
theorem advance_negative_moves_clock_backwards :
    ((FakeTimeProvider.mk 0).advance (-1) 0).now <
      (FakeTimeProvider.mk 0).now := by decide

/-- C7 (amended): for every fixed-clock state, a call to `advance` with
nonnegative hour and day arguments leaves `now()` greater than or equal
to its value before the call. -/
theorem advance_monotone (t : FakeTimeProvider) (hours days : Int)
    (hh : 0 ≤ hours) (hd : 0 ≤ days) :
    t.now ≤ (t.advance hours days).now := by
  simp only [FakeTimeProvider.now, FakeTimeProvider.advance, timedelta]
  omega

/-- C8: `create_invoice` never fails because of the notification
outcome: whatever boolean the injected email service returns from
`send`, the call completes, the invoice row is appended to the store
(and stays there — no rollback), and that boolean is returned unchanged
as the `email_sent` field. -/
theorem create_invoice_reports_email_flag {σ : Type} (svc : EmailSvc σ)
    (b : BillingManager σ) (appointment_id : Nat)
    (client_email service_type : List Char) (bval : Bool)
    (h : (svc.send b.email client_email
        ("Factura #".toList ++ (Nat.repr (b.invoice_repo.seq + 1)).toList ++
          " - AutoService".toList)
        ("Monto a pagar: $".toList ++
          format_2f (BillingManager._calculate_amount service_type))).1 =
      bval) :
    (BillingManager.create_invoice svc b appointment_id client_email
      service_type).1.email_sent = bval ∧
    ∃ row, (BillingManager.create_invoice svc b appointment_id client_email
        service_type).2.invoice_repo.rows =
        b.invoice_repo.rows ++ [row] ∧
      row.id = (BillingManager.create_invoice svc b appointment_id
        client_email service_type).1.invoice_id ∧
      row.amount = (BillingManager.create_invoice svc b appointment_id
        client_email service_type).1.amount := by
  refine ⟨?_, { id := b.invoice_repo.seq + 1,
                appointment_id := appointment_id,
                amount := BillingManager._calculate_amount service_type,
                status := "unpaid".toList,
                created_at := b.time.now }, ?_, ?_, ?_⟩
  · simpa [BillingManager.create_invoice,
      SqliteInvoiceRepository.create] using h
  · simp [BillingManager.create_invoice, SqliteInvoiceRepository.create]
  · simp [BillingManager.create_invoice, SqliteInvoiceRepository.create]
  · simp [BillingManager.create_invoice, SqliteInvoiceRepository.create]

/-- The four arguments of one `create_appointment` call. -/
structure CreateInput where
  client_name : List Char
  email : List Char
  service_type : List Char
  date : List Char
deriving DecidableEq

/-- Runs a sequence of `create_appointment` calls against a manager whose
email service is the recording `MockEmailService`, threading the manager
state (results are discarded, as in the tests). -/
def runCreates (m : AutoServiceManager MockEmailService) :
    List CreateInput → AutoServiceManager MockEmailService
  | [] => m
  | inp :: rest =>
    runCreates (AutoServiceManager.create_appointment mockEmailSvc m
      inp.client_name inp.email inp.service_type inp.date).2 rest

/-- Running valid creations against a mock-email manager adds one log
entry per call, in order, each addressed to that call's contact. -/
theorem runCreates_mock_log (inputs : List CreateInput) :
    ∀ m : AutoServiceManager MockEmailService,
      (∀ inp ∈ inputs,
        AutoServiceManager._validate_service_type inp.service_type = true ∧
        AutoServiceManager._validate_email inp.email = true) →
      (runCreates m inputs).email.call_count =
        m.email.call_count + inputs.length ∧
      (runCreates m inputs).email.sent_emails.map SentEmail.to_addr =
        m.email.sent_emails.map SentEmail.to_addr ++
          inputs.map CreateInput.email := by
  induction inputs with
  | nil =>
    intro m _
    simp [runCreates]
  | cons inp rest ih =>
    intro m h
    have hv := h inp (List.mem_cons_self inp rest)
    have hrest : ∀ i ∈ rest,
        AutoServiceManager._validate_service_type i.service_type = true ∧
        AutoServiceManager._validate_email i.email = true :=
      fun i hi => h i (List.mem_cons_of_mem inp hi)
    simp only [runCreates]
    rw [create_appointment_eq_of_valid mockEmailSvc m inp.client_name
      inp.email inp.service_type inp.date hv.1 hv.2]
    obtain ⟨ihc, ihe⟩ := ih _ hrest
    rw [ihc, ihe]
    simp [mockEmailSvc, MockEmailService.send]
    omega

/-- C9: the recording email double's `send` always returns true and
appends exactly one entry; after running N valid `create_appointment`
calls against a manager holding a fresh recording service, its call
count is N and the i-th logged recipient is the i-th call's contact. -/
theorem mock_email_records_all_creates (time : FakeTimeProvider)
    (repo : SqliteAppointmentRepository)
    (notifications : Option SpyNotificationService)
    (inputs : List CreateInput)
    (hvalid : ∀ inp ∈ inputs,
      AutoServiceManager._validate_service_type inp.service_type = true ∧
      AutoServiceManager._validate_email inp.email = true) :
    (runCreates
        { time := time, email := { sent_emails := [], call_count := 0 },
          repo := repo, notifications := notifications }
        inputs).email.call_count = inputs.length ∧
    (runCreates
        { time := time, email := { sent_emails := [], call_count := 0 },
          repo := repo, notifications := notifications }
        inputs).email.sent_emails.map SentEmail.to_addr =
      inputs.map CreateInput.email ∧
    ∀ (s : MockEmailService) (to_addr subject body : List Char),
      (MockEmailService.send s to_addr subject body).1 = true ∧
      (MockEmailService.send s to_addr subject body).2.sent_emails =
        s.sent_emails ++
          [{ to_addr := to_addr, subject := subject, body := body }] := by
  obtain ⟨hc, he⟩ := runCreates_mock_log inputs
    { time := time, email := { sent_emails := [], call_count := 0 },
      repo := repo, notifications := notifications } hvalid
  refine ⟨by simpa using hc, by simpa using he, ?_⟩
  intro s to_addr subject body
  exact ⟨rfl, rfl⟩

/-- C10: the contact check only looks for a dot between the first and
second `@`: the address `a@b@c.d` has a dot after its first `@`, yet
`create_appointment` (with the valid service type `oil_change`) rejects
it with a validation error and leaves the manager unchanged. -/
theorem email_dot_after_second_at_rejected :
    ("a@b@c.d".toList).contains '@' = true ∧
    (afterFirst '@' ("a@b@c.d".toList)).contains '.' = true ∧
    ∀ (σ : Type) (svc : EmailSvc σ) (m : AutoServiceManager σ)
      (client_name date_str : List Char),
      AutoServiceManager.create_appointment svc m client_name
          ("a@b@c.d".toList) ("oil_change".toList) date_str =
        (Except.error (VErr.invalidEmail ("a@b@c.d".toList)), m) := by
  refine ⟨by decide, by decide, ?_⟩
  intro σ svc m client_name date_str
  have hst : AutoServiceManager._validate_service_type
      ("oil_change".toList) = true := by decide
  have hem : AutoServiceManager._validate_email ("a@b@c.d".toList) =
      false := by decide
  simp at hst hem
  simp [AutoServiceManager.create_appointment, hst, hem]

/-- `SmtpEmailService`: the production service always returns `True`; its
console print is I/O and carries no state, so its state type is `Unit`. -/
def smtpEmailSvc : EmailSvc Unit :=
  { send := fun s _ _ _ => (true, s) }

/-- A stateless email service whose transport reports delivery failure:
the `EmailService` contract allows `send` to return `False`, and this
implementation always does. -/
def declineEmailSvc : EmailSvc Unit :=
  { send := fun s _ _ _ => (false, s) }

/-- A fresh manager over the stateless email service: clock at 0, empty
table, no notification service. -/
def sampleManagerU : AutoServiceManager Unit :=
  { time := { _time := 0 }, email := (),
    repo := { rows := [], seq := 0 }, notifications := none }

/-- A fresh manager over the recording email service. -/
def sampleManagerMock : AutoServiceManager MockEmailService :=
  { time := { _time := 0 },
    email := { sent_emails := [], call_count := 0 },
    repo := { rows := [], seq := 0 }, notifications := none }

/-- A fresh billing manager over the stateless email service. -/
def sampleBilling : BillingManager Unit :=
  { time := { _time := 0 }, invoice_repo := { rows := [], seq := 0 },
    email := () }

/-- A one-row appointments table used to exercise `delete`. -/
def sampleRow : AppointmentRow :=
  { id := 1, client_name := "A".toList, email := "a@b.c".toList,
    service_type := "oil_change".toList, date := "d".toList,
    created_at := 0, status := "confirmed".toList }

/-- An appointments table holding `sampleRow`. -/
def sampleRepo : SqliteAppointmentRepository :=
  { rows := [sampleRow], seq := 1 }

/-- C1 witness: a concrete valid creation on a fresh store. -/
theorem create_appointment_fresh_id_and_confirmed_witness :
    ∃ r m', AutoServiceManager.create_appointment smtpEmailSvc
        sampleManagerU ("Ana".toList) ("ana@test.com".toList)
        ("oil_change".toList) ("2025-10-10".toList) =
        (Except.ok r, m') ∧
      0 < r.id ∧ sampleManagerU.repo.seq < r.id ∧
      (∀ row ∈ sampleManagerU.repo.rows, row.id ≠ r.id) ∧
      ∃ a, m'.repo.find_by_id r.id = some a ∧
        a.status = "confirmed".toList :=
  create_appointment_fresh_id_and_confirmed smtpEmailSvc sampleManagerU
    ("Ana".toList) ("ana@test.com".toList) ("oil_change".toList)
    ("2025-10-10".toList) (by decide) (by decide) (by decide)

/-- C2 witness: a concrete invalid service type is rejected with the
structured message and the state is unchanged. -/
theorem create_appointment_invalid_service_witness :
    AutoServiceManager.create_appointment smtpEmailSvc sampleManagerU
        ("Ana".toList) ("ana@test.com".toList) ("lavado".toList)
        ("2025-10-10".toList) =
      (Except.error (VErr.invalidService ("lavado".toList) valid_types),
        sampleManagerU) ∧
    (AutoServiceManager.create_appointment smtpEmailSvc sampleManagerU
        ("Ana".toList) ("ana@test.com".toList) ("lavado".toList)
        ("2025-10-10".toList)).2.repo.rows.length =
      sampleManagerU.repo.rows.length :=
  create_appointment_invalid_service smtpEmailSvc sampleManagerU
    ("Ana".toList) ("ana@test.com".toList) ("lavado".toList)
    ("2025-10-10".toList) (by decide)

/-- C3 witness: a concrete `@`-less contact is rejected and nothing is
persisted or notified. -/
theorem create_appointment_invalid_email_witness :
    AutoServiceManager.create_appointment smtpEmailSvc sampleManagerU
        ("Ana".toList) ("email-sin-arroba".toList) ("oil_change".toList)
        ("2025-10-10".toList) =
      (Except.error (VErr.invalidEmail ("email-sin-arroba".toList)),
        sampleManagerU) ∧
    (AutoServiceManager.create_appointment smtpEmailSvc sampleManagerU
        ("Ana".toList) ("email-sin-arroba".toList) ("oil_change".toList)
        ("2025-10-10".toList)).2.repo = sampleManagerU.repo ∧
    (AutoServiceManager.create_appointment smtpEmailSvc sampleManagerU
        ("Ana".toList) ("email-sin-arroba".toList) ("oil_change".toList)
        ("2025-10-10".toList)).2.email = sampleManagerU.email ∧
    (AutoServiceManager.create_appointment smtpEmailSvc sampleManagerU
        ("Ana".toList) ("email-sin-arroba".toList) ("oil_change".toList)
        ("2025-10-10".toList)).2.notifications =
      sampleManagerU.notifications :=
  create_appointment_invalid_email smtpEmailSvc sampleManagerU
    ("Ana".toList) ("email-sin-arroba".toList) ("oil_change".toList)
    ("2025-10-10".toList) (by decide) (Or.inl (by decide))

/-- C4 witness: deleting id 1 from a one-row table succeeds exactly
once, and deleting the absent id 2 returns false. -/
theorem delete_semantics_witness :
    ((sampleRepo.delete 1).1 = true ∧
      (sampleRepo.delete 1).2.find_by_id 1 = none ∧
      ((sampleRepo.delete 1).2.delete 1).1 = false) ∧
    (sampleRepo.delete 2).1 = false :=
  ⟨(delete_semantics sampleRepo 1).1 (by decide),
   (delete_semantics sampleRepo 2).2 (by decide)⟩

/-- C5 witness: the five price cases evaluated on a fresh billing
manager. -/
theorem create_invoice_amounts_witness :
    (BillingManager.create_invoice smtpEmailSvc sampleBilling 1
      ("a@b.c".toList) ("oil_change".toList)).1.amount = 50 ∧
    (BillingManager.create_invoice smtpEmailSvc sampleBilling 1
      ("a@b.c".toList) ("brake_check".toList)).1.amount = 75 ∧
    (BillingManager.create_invoice smtpEmailSvc sampleBilling 1
      ("a@b.c".toList) ("tire_rotation".toList)).1.amount = 40 ∧
    (BillingManager.create_invoice smtpEmailSvc sampleBilling 1
      ("a@b.c".toList) ("full_service".toList)).1.amount = 150 ∧
    (BillingManager.create_invoice smtpEmailSvc sampleBilling 1
      ("a@b.c".toList) ("lavado".toList)).1.amount = 100 :=
  ⟨(create_invoice_amounts smtpEmailSvc sampleBilling 1 ("a@b.c".toList)
      ("oil_change".toList)).1.1 rfl,
   (create_invoice_amounts smtpEmailSvc sampleBilling 1 ("a@b.c".toList)
      ("brake_check".toList)).1.2.1 rfl,
   (create_invoice_amounts smtpEmailSvc sampleBilling 1 ("a@b.c".toList)
      ("tire_rotation".toList)).1.2.2.1 rfl,
   (create_invoice_amounts smtpEmailSvc sampleBilling 1 ("a@b.c".toList)
      ("full_service".toList)).1.2.2.2.1 rfl,
   (create_invoice_amounts smtpEmailSvc sampleBilling 1 ("a@b.c".toList)
      ("lavado".toList)).1.2.2.2.2 (by decide)⟩

/-- The appointment created by the first concrete call of the C6
witness. -/
def w6_a1 : Appointment :=
  { id := some 1, client_name := "A".toList, email := "a@b.c".toList,
    service_type := "oil_change".toList, date := "d".toList,
    created_at := 0, status := "confirmed".toList }

/-- The table row created by the first concrete call of the C6
witness. -/
def w6_row1 : AppointmentRow :=
  { id := 1, client_name := "A".toList, email := "a@b.c".toList,
    service_type := "oil_change".toList, date := "d".toList,
    created_at := 0, status := "confirmed".toList }

/-- Result of the first concrete C6 call. -/
def w6_r1 : CreateResult :=
  { id := 1, status := "confirmed".toList, email_sent := true,
    created_at := 0, appointment := w6_a1 }

/-- State after the first concrete C6 call. -/
def w6_m1 : AutoServiceManager Unit :=
  { time := { _time := 0 }, email := (),
    repo := { rows := [w6_row1], seq := 1 }, notifications := none }

/-- Result of the second concrete C6 call (clock untouched). -/
def w6_r2 : CreateResult :=
  { id := 2, status := "confirmed".toList, email_sent := true,
    created_at := 0, appointment := { w6_a1 with id := some 2 } }

/-- State after the second concrete C6 call. -/
def w6_m2 : AutoServiceManager Unit :=
  { time := { _time := 0 }, email := (),
    repo := { rows := [w6_row1, { w6_row1 with id := 2 }], seq := 2 },
    notifications := none }

/-- Result of the alternative second C6 call after `advance(hours=5)`. -/
def w6_r3 : CreateResult :=
  { id := 2, status := "confirmed".toList, email_sent := true,
    created_at := 18000,
    appointment := { w6_a1 with id := some 2, created_at := 18000 } }

/-- State after the alternative second C6 call. -/
def w6_m3 : AutoServiceManager Unit :=
  { time := { _time := 18000 }, email := (),
    repo := { rows := [w6_row1,
                       { w6_row1 with id := 2, created_at := 18000 }],
              seq := 2 },
    notifications := none }

/-- C6 witness: on a concrete fresh manager, back-to-back creations
share `created_at`, and creations separated by `advance(hours=5)` differ
by exactly 18000 seconds. -/
theorem fake_clock_create_timestamps_witness :
    w6_r2.created_at = w6_r1.created_at ∧
      w6_r3.created_at - w6_r1.created_at = 5 * 3600 :=
  fake_clock_create_timestamps smtpEmailSvc sampleManagerU
    ("A".toList) ("a@b.c".toList) ("oil_change".toList) ("d".toList)
    ("A".toList) ("a@b.c".toList) ("oil_change".toList) ("d".toList)
    (by decide) (by decide) (by decide) (by decide)
    w6_r1 w6_r2 w6_r3 w6_m1 w6_m2 w6_m3 (by rfl) (by rfl) (by rfl)

/-- C7 (amended) witness: advancing 2 hours and 1 day from timestamp 0
does not move the clock backwards. -/
theorem advance_monotone_witness :
    (FakeTimeProvider.mk 0).now ≤
      ((FakeTimeProvider.mk 0).advance 2 1).now :=
  advance_monotone (FakeTimeProvider.mk 0) 2 1 (by decide) (by decide)

/-- C8 witness: with a service that reports delivery failure, the
invoice is still persisted and the result carries `email_sent = false`. -/
theorem create_invoice_reports_email_flag_witness :
    (BillingManager.create_invoice declineEmailSvc sampleBilling 1
      ("a@b.c".toList) ("oil_change".toList)).1.email_sent = false ∧
    ∃ row, (BillingManager.create_invoice declineEmailSvc sampleBilling 1
        ("a@b.c".toList) ("oil_change".toList)).2.invoice_repo.rows =
        sampleBilling.invoice_repo.rows ++ [row] ∧
      row.id = (BillingManager.create_invoice declineEmailSvc
        sampleBilling 1 ("a@b.c".toList)
        ("oil_change".toList)).1.invoice_id ∧
      row.amount = (BillingManager.create_invoice declineEmailSvc
        sampleBilling 1 ("a@b.c".toList)
        ("oil_change".toList)).1.amount :=
  create_invoice_reports_email_flag declineEmailSvc sampleBilling 1
    ("a@b.c".toList) ("oil_change".toList) false rfl

/-- The two concrete creation calls of the C9 witness. -/
def w9_inputs : List CreateInput :=
  [{ client_name := "A".toList, email := "a@b.c".toList,
     service_type := "oil_change".toList, date := "d".toList },
   { client_name := "B".toList, email := "b@c.d".toList,
     service_type := "brake_check".toList, date := "d".toList }]

/-- C9 witness: after two concrete valid creations against a fresh
recording service, the call count is 2 and the logged recipients are the
two contacts in order. -/
theorem mock_email_records_all_creates_witness :
    (runCreates
        { time := { _time := 0 },
          email := { sent_emails := [], call_count := 0 },
          repo := { rows := [], seq := 0 }, notifications := none }
        w9_inputs).email.call_count = 2 ∧
    (runCreates
        { time := { _time := 0 },
          email := { sent_emails := [], call_count := 0 },
          repo := { rows := [], seq := 0 }, notifications := none }
        w9_inputs).email.sent_emails.map SentEmail.to_addr =
      ["a@b.c".toList, "b@c.d".toList] :=
  ⟨(mock_email_records_all_creates { _time := 0 } { rows := [], seq := 0 }
      none w9_inputs (by decide)).1,
   (mock_email_records_all_creates { _time := 0 } { rows := [], seq := 0 }
      none w9_inputs (by decide)).2.1⟩
